import Mathlib

/-!
Shallow embedding of the session management module of the `altria` crate
(`crates/altria/src/web/session.rs`), together with theorems checking the
natural-language specification against it.

Modelling conventions:
- `SystemTime` and `Duration` are `Nat`; wherever the Rust code calls
  `SystemTime::now()`, the embedding takes an explicit `now : Nat` argument
  at the same point.
- The `Arc<RwLock<SessionState<T>>>` is embedded as an explicit
  `SessionState` value inside `Session`, with state passing: a mutating
  accessor returns the updated `Session`.  Cloning a handle shares the lock
  in Rust, so a clone is the identical value here.
- Lock poisoning is a `Bool` parameter `p` on every accessor that touches
  the lock: `p = true` means the `read()`/`write()` call returns `Err`,
  `p = false` means it succeeds.  This mirrors `self.state.read().ok()`
  on reads and `if let Ok(mut state) = self.state.write()` on writes.
- `HashMap<String, String>` is an association list with unique keys;
  inserting replaces any existing binding of the key.
-/

namespace Altria

/-- The guarded mutable record, from `struct SessionState<T>`: payload,
context map, optional expiry, and the two serde-skipped runtime flags. -/
structure SessionState (α : Type) where
  data : Option α
  context : List (String × String)
  expires_at : Option Nat
  modified : Bool
  discarded : Bool
deriving DecidableEq

/-- The session handle, from `struct Session<T>`: immutable `id` and
`created_at` plus the lock-guarded state. -/
structure Session (α : Type) where
  id : String
  created_at : Nat
  state : SessionState α
deriving DecidableEq

/-- `HashMap::insert`: insert-or-overwrite one binding. -/
def ctxInsert (m : List (String × String)) (key value : String) :
    List (String × String) :=
  (key, value) :: m.filter (fun kv => kv.1 ≠ key)

/-- `HashMap::get(key).cloned()`. -/
def ctxGet (m : List (String × String)) (key : String) : Option String :=
  (m.find? (fun kv => kv.1 == key)).map (fun kv => kv.2)

/-- `self.state.read().ok()` / `self.state.write().ok()`: the lock yields
the state unless poisoned (`p = true`). -/
def readState (s : Session α) (p : Bool) : Option (SessionState α) :=
  if p then none else some s.state

/-- `Session::expires_at`: `self.state.read().ok().and_then(|st| st.expires_at)`. -/
def Session.expires_at (s : Session α) (p : Bool) : Option Nat :=
  (readState s p).bind fun st => st.expires_at

/-- `Session::is_expired`: false when no expiry is readable, else
`SystemTime::now() >= expires_at`. -/
def Session.is_expired (s : Session α) (p : Bool) (now : Nat) : Bool :=
  match (readState s p).bind fun st => st.expires_at with
  | none => false
  | some e => decide (now ≥ e)

/-- `Session::is_modified`: `read().ok().is_some_and(|st| st.modified)`. -/
def Session.is_modified (s : Session α) (p : Bool) : Bool :=
  match readState s p with
  | none => false
  | some st => st.modified

/-- `Session::is_discarded`: `read().ok().is_some_and(|st| st.discarded)`. -/
def Session.is_discarded (s : Session α) (p : Bool) : Bool :=
  match readState s p with
  | none => false
  | some st => st.discarded

/-- `Session::has_data`: `read().ok().is_some_and(|st| st.data.is_some())`. -/
def Session.has_data (s : Session α) (p : Bool) : Bool :=
  match readState s p with
  | none => false
  | some st => st.data.isSome

/-- `Session::data`: `read().ok().and_then(|st| st.data.clone())`. -/
def Session.data (s : Session α) (p : Bool) : Option α :=
  (readState s p).bind fun st => st.data

/-- `Session::get_context`: `read().ok().and_then(|st| st.context.get(key).cloned())`. -/
def Session.get_context (s : Session α) (p : Bool) (key : String) : Option String :=
  (readState s p).bind fun st => ctxGet st.context key

/-- `Session::context`: `read().ok().map(|st| st.context.clone()).unwrap_or_default()`. -/
def Session.context (s : Session α) (p : Bool) : List (String × String) :=
  match readState s p with
  | none => []
  | some st => st.context

/-- `Session::update_data`: under the write lock replaces the payload and
sets `modified`; a failed (poisoned) write lock leaves everything unchanged. -/
def Session.update_data (s : Session α) (p : Bool) (d : Option α) : Session α :=
  if p then s
  else { s with state := { s.state with data := d, modified := true } }

/-- `Session::set_context`: insert-or-overwrite one context entry and set
`modified`, under the write lock; no-op when the lock is poisoned. -/
def Session.set_context (s : Session α) (p : Bool) (key value : String) : Session α :=
  if p then s
  else { s with state :=
    { s.state with context := ctxInsert s.state.context key value, modified := true } }

/-- `Session::extend_expiration`: within one critical section sets
`expires_at` to `(expires_at.unwrap_or_else(SystemTime::now)) + additional_time`
and sets `modified`; no-op when the lock is poisoned. -/
def Session.extend_expiration (s : Session α) (p : Bool) (now additional_time : Nat) :
    Session α :=
  if p then s
  else { s with state :=
    { s.state with
      expires_at := some (s.state.expires_at.getD now + additional_time),
      modified := true } }

/-- `Session::set_expiration`: replaces `expires_at` wholesale and sets
`modified`; no-op when the lock is poisoned. -/
def Session.set_expiration (s : Session α) (p : Bool) (e : Option Nat) : Session α :=
  if p then s
  else { s with state := { s.state with expires_at := e, modified := true } }

/-- `Session::discard`: sets `discarded` and `modified`; no-op when the
lock is poisoned. -/
def Session.discard (s : Session α) (p : Bool) : Session α :=
  if p then s
  else { s with state := { s.state with discarded := true, modified := true } }

/-- `Session::clear_modified`: resets `modified` to false; no-op when the
lock is poisoned. -/
def Session.clear_modified (s : Session α) (p : Bool) : Session α :=
  if p then s
  else { s with state := { s.state with modified := false } }

/-- `Clone for Session`: cloning shares the `Arc`-guarded state, so the
clone is the very same handle value in this embedding. -/
def Session.clone (s : Session α) : Session α := s

/-- `PartialEq for Session`: `self.id == other.id`, nothing else. -/
def Session.beq (s other : Session α) : Bool :=
  s.id == other.id

/-- The persisted/wire form produced by `impl Serialize for Session`:
exactly the five fields `id`, `created_at`, `data`, `context`,
`expires_at`; no `modified` or `discarded` field exists in this shape. -/
structure SerializedSession (α : Type) where
  id : String
  created_at : Nat
  data : Option α
  context : List (String × String)
  expires_at : Option Nat
deriving DecidableEq

/-- `impl Serialize for Session`: reads the state under the lock and emits
the five fields; fails (serde error) when the lock is poisoned. -/
def Session.serialize (s : Session α) (p : Bool) : Option (SerializedSession α) :=
  (readState s p).map fun st =>
    { id := s.id
      created_at := s.created_at
      data := st.data
      context := st.context
      expires_at := st.expires_at }

/-- `impl Deserialize for Session`, the successful `visit_map` path: all
five fields present, and the reconstructed state gets
`modified := false, discarded := false`. -/
def Session.deserialize (w : SerializedSession α) : Session α :=
  { id := w.id
    created_at := w.created_at
    state :=
      { data := w.data
        context := w.context
        expires_at := w.expires_at
        modified := false
        discarded := false } }

/-- `struct SessionBuilder<T, G>`: the accumulated configuration.  The id
generator is modelled by passing the generated string to `build`. -/
structure SessionBuilder (α : Type) where
  data : Option α
  expires_in : Option Nat
  context : List (String × String)
deriving DecidableEq

/-- `SessionBuilder::new` / `with_id_generator`: empty configuration. -/
def SessionBuilder.new : SessionBuilder α :=
  { data := none, expires_in := none, context := [] }

/-- `SessionBuilder::build`: samples `now` once, derives
`expires_at = expires_in.map(|d| now + d)` from that same sample, and
produces the session with both flags false.  `genId` is the string the
builder's id generator returns. -/
def SessionBuilder.build (b : SessionBuilder α) (genId : String) (now : Nat) :
    Session α :=
  let expires_at := b.expires_in.map fun duration => now + duration
  { id := genId
    created_at := now
    state :=
      { data := b.data
        context := b.context
        expires_at := expires_at
        modified := false
        discarded := false } }

/-- One call through the mutating accessor surface of a handle, used to
state properties about arbitrary operation sequences. -/
inductive SessionOp (α : Type) where
  | update_data (d : Option α)
  | set_context (key value : String)
  | set_expiration (e : Option Nat)
  | extend_expiration (now d : Nat)
  | discard
  | clear_modified

/-- Dispatch one operation; `p` is the poisoning of its lock acquisition. -/
def Session.applyOp (s : Session α) (p : Bool) : SessionOp α → Session α
  | .update_data d => s.update_data p d
  | .set_context k v => s.set_context p k v
  | .set_expiration e => s.set_expiration p e
  | .extend_expiration now d => s.extend_expiration p now d
  | .discard => s.discard p
  | .clear_modified => s.clear_modified p

/-- Run a sequence of operations, each with its own lock outcome. -/
def Session.applyOps (s : Session α) : List (Bool × SessionOp α) → Session α
  | [] => s
  | (p, op) :: rest => Session.applyOps (s.applyOp p op) rest

/-- A concrete session with an expiry of 5 and no payload, used as a test
vector for expiry-related statements. -/
def sampleExpiring : Session Nat :=
  { id := "sid-a"
    created_at := 0
    state :=
      { data := none
        context := []
        expires_at := some 5
        modified := false
        discarded := false } }

/-- A concrete permanent session (no expiry), used as a test vector. -/
def samplePermanent : Session Nat :=
  { id := "sid-b"
    created_at := 0
    state :=
      { data := some 7
        context := [("theme", "dark")]
        expires_at := none
        modified := true
        discarded := true } }

end Altria

namespace Altria

/-- Claim C1: deserializing a just-serialized session yields a session with
identical `id`, `created_at`, `data`, `context` and `expires_at`, and with
`modified = false` and `discarded = false`, whatever the flags' values were
at serialization time; the wire shape `SerializedSession` itself has no
flag fields. -/
theorem claim_C1_serialize_roundtrip (α : Type) (s : Session α) :
    (s.serialize false).map Session.deserialize =
      some { id := s.id
             created_at := s.created_at
             state := { data := s.state.data
                        context := s.state.context
                        expires_at := s.state.expires_at
                        modified := false
                        discarded := false } } := rfl

/-- Claim C2, amended: `is_expired()` is false whenever `expires_at` is
absent; when `expires_at = t` is present it reports expired exactly when
the current time has reached or passed `t` (`now ≥ t`, not strictly past);
for a session built with `expires_in(d)` it is false immediately after
construction provided `d > 0`, and true once `now ≥ created_at + d`. -/
theorem claim_C2_is_expired_amended (α : Type) (s : Session α) (now : Nat) :
    (s.state.expires_at = none → s.is_expired false now = false) ∧
    (∀ t, s.state.expires_at = some t → (s.is_expired false now = true ↔ t ≤ now)) ∧
    (∀ (b : SessionBuilder α) (genId : String) (d : Nat), 0 < d →
      (({ b with expires_in := some d } : SessionBuilder α).build
        genId now).is_expired false now = false) ∧
    (∀ (b : SessionBuilder α) (genId : String) (d later : Nat), now + d ≤ later →
      (({ b with expires_in := some d } : SessionBuilder α).build
        genId now).is_expired false later = true) := by
  refine ⟨?_, ?_, ?_, ?_⟩
  · intro h
    simp [Session.is_expired, readState, h]
  · intro t ht
    simp [Session.is_expired, readState, ht]
  · intro b genId d hd
    simp [Session.is_expired, readState, SessionBuilder.build]
    omega
  · intro b genId d later hl
    simp [Session.is_expired, readState, SessionBuilder.build]
    omega

/-- Claim C2, counterexample to the claim as stated: with
`expires_at = some 5` the code already reports expired at `now = 5`,
although time has not advanced strictly past 5. -/
theorem claim_C2_counterexample :
    sampleExpiring.is_expired false 5 = true ∧ ¬ (5 < 5) := by decide

/-- Witness for the amended C2 theorem at concrete inputs. -/
theorem claim_C2_witness :
    samplePermanent.is_expired false 99 = false ∧
    sampleExpiring.is_expired false 9 = true ∧
    (({ SessionBuilder.new with expires_in := some 5 } :
        SessionBuilder Nat).build "g" 0).is_expired false 0 = false ∧
    (({ SessionBuilder.new with expires_in := some 5 } :
        SessionBuilder Nat).build "g" 0).is_expired false 5 = true := by
  refine ⟨?_, ?_, ?_, ?_⟩
  · exact (claim_C2_is_expired_amended Nat samplePermanent 99).1 rfl
  · exact ((claim_C2_is_expired_amended Nat sampleExpiring 9).2.1 5 rfl).mpr (by decide)
  · exact (claim_C2_is_expired_amended Nat sampleExpiring 0).2.2.1
      SessionBuilder.new "g" 5 (by decide)
  · exact (claim_C2_is_expired_amended Nat sampleExpiring 0).2.2.2
      SessionBuilder.new "g" 5 5 (by decide)

/-- Claim C3, amended: `extend_expiration(d)` sets `expires_at` to
(previous `expires_at`, or `now` if none) plus `d`; on a session whose
`expires_at` was `t` the new value is `t + d`, which is strictly greater
than `t` for every nonzero `d` (for `d = 0` it equals `t`). -/
theorem claim_C3_extend_expiration_amended (α : Type) (s : Session α) (now d : Nat) :
    (s.extend_expiration false now d).state.expires_at
        = some (s.state.expires_at.getD now + d) ∧
    (∀ t, s.state.expires_at = some t →
      (s.extend_expiration false now d).state.expires_at = some (t + d) ∧
      (0 < d → t < t + d)) := by
  refine ⟨rfl, ?_⟩
  intro t ht
  constructor
  · simp [Session.extend_expiration, ht]
  · omega

/-- Claim C3, counterexample to the claim as stated: extending by the zero
duration leaves `expires_at` at 5, which is not strictly greater than 5. -/
theorem claim_C3_counterexample :
    (sampleExpiring.extend_expiration false 0 0).state.expires_at = some 5 ∧
    ¬ (5 < 5) := by decide

/-- Witness for the amended C3 theorem at concrete inputs. -/
theorem claim_C3_witness :
    (sampleExpiring.extend_expiration false 0 3).state.expires_at = some 8 ∧
    5 < 8 := by
  have h := (claim_C3_extend_expiration_amended Nat sampleExpiring 0 3).2 5 rfl
  exact ⟨h.1, h.2 (by decide)⟩

/-- Claim C4: each mutating operation sets the modified flag,
`clear_modified` resets it, and a fresh session from the builder has
`is_modified() = false`.  Pure reads are embedded as functions that do not
produce a new session, matching their read-only lock use in the source. -/
theorem claim_C4_modified_discipline (α : Type) (s : Session α)
    (b : SessionBuilder α) (genId : String) (now d : Nat)
    (dt : Option α) (key value : String) (e : Option Nat) :
    (s.update_data false dt).is_modified false = true ∧
    (s.set_context false key value).is_modified false = true ∧
    (s.set_expiration false e).is_modified false = true ∧
    (s.extend_expiration false now d).is_modified false = true ∧
    (s.discard false).is_modified false = true ∧
    (s.clear_modified false).is_modified false = false ∧
    (b.build genId now).is_modified false = false :=
  ⟨rfl, rfl, rfl, rfl, rfl, rfl, rfl⟩

/-- Claim C5: `build()` uses one time sample `now` for both `created_at`
and the derived `expires_at = now + d`; the produced session has both
flags false, carries the builder's payload and context, and has no
`expires_at` when `expires_in` was never called. -/
theorem claim_C5_build (α : Type) (b : SessionBuilder α) (genId : String) (now : Nat) :
    (b.build genId now).id = genId ∧
    (b.build genId now).created_at = now ∧
    (b.build genId now).state.expires_at = b.expires_in.map (fun d => now + d) ∧
    (b.build genId now).state.modified = false ∧
    (b.build genId now).state.discarded = false ∧
    (b.build genId now).state.data = b.data ∧
    (b.build genId now).state.context = b.context ∧
    (b.expires_in = none → (b.build genId now).state.expires_at = none) := by
  refine ⟨rfl, rfl, rfl, rfl, rfl, rfl, rfl, ?_⟩
  intro h
  simp [SessionBuilder.build, h]

/-- Witness for the C5 theorem at concrete inputs. -/
theorem claim_C5_witness :
    ((SessionBuilder.new : SessionBuilder Nat).build "g" 4).state.expires_at = none := by
  exact (claim_C5_build Nat SessionBuilder.new "g" 4).2.2.2.2.2.2.2 rfl

/-- Claim C6, amended: session equality holds exactly when the two
identifiers are equal, ignoring payload, context, expiration and flags; a
session equals any clone of itself; and two independently built sessions
are unequal whenever their generated identifiers differ — which the
default UUID v4 generator guarantees only practically, and a custom
generator may violate. -/
theorem claim_C6_equality_amended (α : Type) (s t : Session α)
    (b1 b2 : SessionBuilder α) (g1 g2 : String) (n1 n2 : Nat) :
    (Session.beq s t = true ↔ s.id = t.id) ∧
    Session.beq s s.clone = true ∧
    (g1 ≠ g2 → Session.beq (b1.build g1 n1) (b2.build g2 n2) = false) := by
  refine ⟨?_, ?_, ?_⟩
  · simp [Session.beq]
  · simp [Session.beq, Session.clone]
  · intro h
    simp [Session.beq, SessionBuilder.build, h]

/-- Claim C6, counterexample to the claim as stated: with an id generator
that repeats an identifier (as the crate's own custom-generator test
does), two independently built sessions with identical payload and context
compare equal. -/
theorem claim_C6_counterexample :
    Session.beq ((SessionBuilder.new : SessionBuilder Nat).build "fixed-id" 0)
      ((SessionBuilder.new : SessionBuilder Nat).build "fixed-id" 1) = true := by
  decide

/-- Witness for the amended C6 theorem at concrete inputs. -/
theorem claim_C6_witness :
    Session.beq ((SessionBuilder.new : SessionBuilder Nat).build "a" 0)
      ((SessionBuilder.new : SessionBuilder Nat).build "b" 0) = false := by
  exact (claim_C6_equality_amended Nat samplePermanent samplePermanent
    SessionBuilder.new SessionBuilder.new "a" "b" 0 0).2.2 (by decide)

/-- Claim C7: when the lock is poisoned, every read degrades to a safe
default: absent payload, empty context, absent context value, absent
expiry, not expired, not modified, not discarded, no data. -/
theorem claim_C7_poisoned_reads (α : Type) (s : Session α) (key : String) (now : Nat) :
    s.data true = none ∧
    s.context true = [] ∧
    s.get_context true key = none ∧
    s.expires_at true = none ∧
    s.is_expired true now = false ∧
    s.is_modified true = false ∧
    s.is_discarded true = false ∧
    s.has_data true = false :=
  ⟨rfl, rfl, rfl, rfl, rfl, rfl, rfl, rfl⟩

/-- Claim C8: when the write lock is poisoned, every mutating operation is
a silent no-op, leaving the whole session (including the modified flag)
unchanged and returning normally. -/
theorem claim_C8_poisoned_writes_noop (α : Type) (s : Session α)
    (dt : Option α) (key value : String) (e : Option Nat) (now d : Nat) :
    s.update_data true dt = s ∧
    s.set_context true key value = s ∧
    s.set_expiration true e = s ∧
    s.extend_expiration true now d = s ∧
    s.discard true = s ∧
    s.clear_modified true = s :=
  ⟨rfl, rfl, rfl, rfl, rfl, rfl⟩

/-- No single handle operation, under any lock outcome, clears the
discarded flag. -/
theorem applyOp_discarded_mono (s : Session α) (p : Bool) (op : SessionOp α)
    (h : s.is_discarded false = true) :
    (s.applyOp p op).is_discarded false = true := by
  have hs : s.state.discarded = true := h
  cases op <;> cases p <;>
    simp [Session.applyOp, Session.update_data, Session.set_context,
      Session.set_expiration, Session.extend_expiration, Session.discard,
      Session.clear_modified, Session.is_discarded, readState, hs]

/-- Claim C9: the discarded flag is monotone on a live handle — once
`is_discarded()` is true it stays true after any sequence of handle
operations (each with any lock outcome); only deserialization or the
builder yield `discarded = false`. -/
theorem claim_C9_discarded_monotone (α : Type) (s : Session α)
    (ops : List (Bool × SessionOp α)) (w : SerializedSession α)
    (b : SessionBuilder α) (genId : String) (now : Nat)
    (h : s.is_discarded false = true) :
    (s.applyOps ops).is_discarded false = true ∧
    (Session.deserialize w).is_discarded false = false ∧
    (b.build genId now).is_discarded false = false := by
  refine ⟨?_, rfl, rfl⟩
  induction ops generalizing s with
  | nil => exact h
  | cons hd tl ih =>
      obtain ⟨p, op⟩ := hd
      exact ih _ (applyOp_discarded_mono s p op h)

/-- Witness for the C9 theorem at concrete inputs. -/
theorem claim_C9_witness :
    (samplePermanent.applyOps
      [(false, SessionOp.clear_modified), (true, SessionOp.discard),
       (false, SessionOp.set_context "k" "v")]).is_discarded false = true := by
  exact (claim_C9_discarded_monotone Nat samplePermanent _
    ⟨"w", 0, none, [], none⟩ SessionBuilder.new "g" 0 (by decide)).1

/-- Claim C10: `clear_modified()` changes only the modified field; id,
creation time, payload, context, expiry and the discarded flag are
untouched, so `discard()` then `clear_modified()` leaves the session
discarded but not modified. -/
theorem claim_C10_clear_modified_frame (α : Type) (s : Session α) :
    (s.clear_modified false).id = s.id ∧
    (s.clear_modified false).created_at = s.created_at ∧
    (s.clear_modified false).state.data = s.state.data ∧
    (s.clear_modified false).state.context = s.state.context ∧
    (s.clear_modified false).state.expires_at = s.state.expires_at ∧
    (s.clear_modified false).state.discarded = s.state.discarded ∧
    (s.clear_modified false).state.modified = false ∧
    ((s.discard false).clear_modified false).is_discarded false = true ∧
    ((s.discard false).clear_modified false).is_modified false = false :=
  ⟨rfl, rfl, rfl, rfl, rfl, rfl, rfl, rfl, rfl⟩

end Altria
